import Mathlib

/-!
Virtual table components.

A verification development for `clang/include/clang/AST/VTableBuilder.h`.

The class `VTableComponent` is a kind tag, an anonymous union and four
boolean flags.  The union members `Offset`, `Ptr`, `TemplateParams` and
`StaticFunc.FuncPtr` all begin at the first byte of the union, so they are
four views of one stored word; `StaticFunc.TemplateInfo`,
`StaticFunc.InheritanceInfo` and `StaticFunc.VirtualInfo` follow it and
overlap nothing that the class writes through another member.

Assertions are modelled as failure: an accessor guarded by `assert` returns
`none` when the asserted condition is false.
-/

namespace clang

/-- Modelled from the spec: the type `CharUnits` (clang/AST/CharUnits.h) is
used by the header but declared elsewhere; the spec describes the payload of
the offset kinds as "a signed byte-granularity offset", so it is an integer. -/
abbrev CharUnits := Int

/-- The value of a `const void *`, and of every declaration pointer stored
through one (`const CXXRecordDecl *`, `const FunctionDecl *`, ...): the
integer value of the address.  Two pointers are equal when their values are. -/
abbrev Pointer := Int

/-- The null pointer. -/
def nullptr : Pointer := 0

/-- The class `ASTContext`, which the static factories receive by reference
and never use. -/
structure ASTContext where
  id : Nat
deriving DecidableEq, Repr

/-- The enumeration `VTableComponent::Kind`, in declaration order. -/
inductive VTableComponent.Kind where
  | CK_VCallOffset
  | CK_VBaseOffset
  | CK_OffsetToTop
  | CK_RTTI
  | CK_FunctionPointer
  | CK_CompleteDtorPointer
  | CK_DeletingDtorPointer
  | CK_UnusedFunctionPointer
  | CK_StaticFunctionPointer
  | CK_StaticLambda
  | CK_StaticStdFunction
  | CK_VirtualTemplateMethod
  | CK_VirtualInheritedMethod
  | CK_TemplateParamInfo
deriving DecidableEq, Repr

/-- The data members of `VTableComponent`.  `Word0` is the first word of the
anonymous union, shared by `Offset`, `Ptr`, `TemplateParams` and
`StaticFunc.FuncPtr`; the next three fields are the remaining members of
`StaticFunc`. -/
structure VTableComponent where
  TheKind : VTableComponent.Kind
  Word0 : Int
  TemplateInfo : Pointer
  InheritanceInfo : Pointer
  VirtualInfo : Pointer
  IsMutable : Bool
  HasTemplateParams : Bool
  IsVirtualInherited : Bool
  IsVirtualTemplate : Bool
deriving DecidableEq, Repr

/-- The bytes of the union that the default constructor leaves unwritten: it
initialises `Ptr` only, so the three later members of `StaticFunc` start with
whatever the storage held. -/
structure Indeterminate where
  TemplateInfo : Pointer
  InheritanceInfo : Pointer
  VirtualInfo : Pointer
deriving DecidableEq, Repr

namespace VTableComponent

open Kind

/-- Union member `Offset`. -/
abbrev Offset (c : VTableComponent) : CharUnits := c.Word0

/-- Union member `Ptr`. -/
abbrev Ptr (c : VTableComponent) : Pointer := c.Word0

/-- Union member `TemplateParams`. -/
abbrev TemplateParams (c : VTableComponent) : Pointer := c.Word0

/-- Union member `StaticFunc.FuncPtr`. -/
abbrev FuncPtr (c : VTableComponent) : Pointer := c.Word0

/-- The default constructor `VTableComponent()`: kind `CK_FunctionPointer`,
`Ptr(nullptr)`, all four flags false. -/
def ctor (junk : Indeterminate) : VTableComponent :=
  { TheKind := CK_FunctionPointer
    Word0 := nullptr
    TemplateInfo := junk.TemplateInfo
    InheritanceInfo := junk.InheritanceInfo
    VirtualInfo := junk.VirtualInfo
    IsMutable := false
    HasTemplateParams := false
    IsVirtualInherited := false
    IsVirtualTemplate := false }

def MakeVCallOffset (junk : Indeterminate) (Offset : CharUnits) : VTableComponent :=
  let Result := ctor junk
  let Result := { Result with TheKind := CK_VCallOffset }
  let Result := { Result with Word0 := Offset }
  Result

def MakeVBaseOffset (junk : Indeterminate) (Offset : CharUnits) : VTableComponent :=
  let Result := ctor junk
  let Result := { Result with TheKind := CK_VBaseOffset }
  let Result := { Result with Word0 := Offset }
  Result

def MakeOffsetToTop (junk : Indeterminate) (Offset : CharUnits) : VTableComponent :=
  let Result := ctor junk
  let Result := { Result with TheKind := CK_OffsetToTop }
  let Result := { Result with Word0 := Offset }
  Result

def MakeRTTI (junk : Indeterminate) (RD : Pointer) : VTableComponent :=
  let Result := ctor junk
  let Result := { Result with TheKind := CK_RTTI }
  let Result := { Result with Word0 := RD }
  Result

def MakeFunction (junk : Indeterminate) (MD : Pointer) : VTableComponent :=
  let Result := ctor junk
  let Result := { Result with TheKind := CK_FunctionPointer }
  let Result := { Result with Word0 := MD }
  Result

def MakeCompleteDtor (junk : Indeterminate) (DD : Pointer) : VTableComponent :=
  let Result := ctor junk
  let Result := { Result with TheKind := CK_CompleteDtorPointer }
  let Result := { Result with Word0 := DD }
  Result

def MakeDeletingDtor (junk : Indeterminate) (DD : Pointer) : VTableComponent :=
  let Result := ctor junk
  let Result := { Result with TheKind := CK_DeletingDtorPointer }
  let Result := { Result with Word0 := DD }
  Result

def MakeUnusedFunction (junk : Indeterminate) (MD : Pointer) : VTableComponent :=
  let Result := ctor junk
  let Result := { Result with TheKind := CK_UnusedFunctionPointer }
  let Result := { Result with Word0 := MD }
  Result

def MakeStaticFunction (junk : Indeterminate) (FD : Pointer) (_Context : ASTContext)
    (Addr : Pointer) (InheritedFrom : Pointer) (IsVirtual : Bool) : VTableComponent :=
  let Result := ctor junk
  let Result := { Result with TheKind := CK_StaticFunctionPointer }
  let Result := { Result with Word0 := if Addr ≠ nullptr then Addr else FD }
  let Result := { Result with TemplateInfo := nullptr }
  let Result := { Result with InheritanceInfo := InheritedFrom }
  let Result := { Result with IsVirtualInherited := IsVirtual }
  let Result := { Result with HasTemplateParams := false }
  let Result := { Result with IsMutable := false }
  Result

def MakeStaticLambda (junk : Indeterminate) (CallOp : Pointer) (_Context : ASTContext)
    (IsMutable : Bool) (Addr : Pointer) (InheritedFrom : Pointer) (IsVirtual : Bool) :
    VTableComponent :=
  let Result := ctor junk
  let Result := { Result with TheKind := CK_StaticLambda }
  let Result := { Result with Word0 := if Addr ≠ nullptr then Addr else CallOp }
  let Result := { Result with TemplateInfo := nullptr }
  let Result := { Result with InheritanceInfo := InheritedFrom }
  let Result := { Result with IsVirtualInherited := IsVirtual }
  let Result := { Result with HasTemplateParams := false }
  let Result := { Result with IsMutable := IsMutable }
  Result

def MakeStaticStdFunction (junk : Indeterminate) (FD : Pointer) (_Context : ASTContext)
    (TPL : Pointer) (Addr : Pointer) (InheritedFrom : Pointer) : VTableComponent :=
  let Result := ctor junk
  let Result := { Result with TheKind := CK_StaticStdFunction }
  let Result := { Result with Word0 := if Addr ≠ nullptr then Addr else FD }
  let Result := { Result with TemplateInfo := TPL }
  let Result := { Result with InheritanceInfo := InheritedFrom }
  let Result := { Result with VirtualInfo := nullptr }
  let Result := { Result with IsVirtualInherited := false }
  let Result := { Result with HasTemplateParams := decide (TPL ≠ nullptr) }
  let Result := { Result with IsMutable := false }
  let Result := { Result with IsVirtualTemplate := false }
  Result

def MakeVirtualTemplateMethod (junk : Indeterminate) (MD : Pointer) (TPL : Pointer)
    (Addr : Pointer) (InheritedFrom : Pointer) : VTableComponent :=
  let Result := ctor junk
  let Result := { Result with TheKind := CK_VirtualTemplateMethod }
  let Result := { Result with Word0 := if Addr ≠ nullptr then Addr else MD }
  let Result := { Result with TemplateInfo := TPL }
  let Result := { Result with InheritanceInfo := InheritedFrom }
  let Result := { Result with VirtualInfo := nullptr }
  let Result := { Result with IsVirtualInherited := false }
  let Result := { Result with HasTemplateParams := true }
  let Result := { Result with IsMutable := false }
  let Result := { Result with IsVirtualTemplate := true }
  Result

def MakeVirtualInheritedMethod (junk : Indeterminate) (MD : Pointer) (VBase : Pointer)
    (Addr : Pointer) (InheritedFrom : Pointer) : VTableComponent :=
  let Result := ctor junk
  let Result := { Result with TheKind := CK_VirtualInheritedMethod }
  let Result := { Result with Word0 := if Addr ≠ nullptr then Addr else MD }
  let Result := { Result with TemplateInfo := nullptr }
  let Result := { Result with InheritanceInfo := InheritedFrom }
  let Result := { Result with VirtualInfo := VBase }
  let Result := { Result with IsVirtualInherited := true }
  let Result := { Result with HasTemplateParams := false }
  let Result := { Result with IsMutable := false }
  let Result := { Result with IsVirtualTemplate := false }
  Result

def MakeTemplateParamInfo (junk : Indeterminate) (TPL : Pointer) (InheritedFrom : Pointer) :
    VTableComponent :=
  let Result := ctor junk
  let Result := { Result with TheKind := CK_TemplateParamInfo }
  let Result := { Result with Word0 := TPL }
  let Result := { Result with InheritanceInfo := InheritedFrom }
  let Result := { Result with HasTemplateParams := true }
  Result

def getKind (c : VTableComponent) : Kind := c.TheKind

def getVCallOffset (c : VTableComponent) : Option CharUnits :=
  if c.TheKind = CK_VCallOffset then some c.Offset else none

def getVBaseOffset (c : VTableComponent) : Option CharUnits :=
  if c.TheKind = CK_VBaseOffset then some c.Offset else none

def getOffsetToTop (c : VTableComponent) : Option CharUnits :=
  if c.TheKind = CK_OffsetToTop then some c.Offset else none

def getRTTIDecl (c : VTableComponent) : Option Pointer :=
  if c.TheKind = CK_RTTI then some c.Ptr else none

def getFunctionDecl (c : VTableComponent) : Option Pointer :=
  if c.TheKind = CK_FunctionPointer then some c.Ptr else none

def getStaticFunctionDecl (c : VTableComponent) : Option Pointer :=
  if c.TheKind = CK_StaticFunctionPointer then some c.FuncPtr else none

def getStaticLambdaDecl (c : VTableComponent) : Option Pointer :=
  if c.TheKind = CK_StaticLambda then some c.FuncPtr else none

def getStaticStdFunctionDecl (c : VTableComponent) : Option Pointer :=
  if c.TheKind = CK_StaticStdFunction then some c.FuncPtr else none

def getVirtualTemplateMethodDecl (c : VTableComponent) : Option Pointer :=
  if c.TheKind = CK_VirtualTemplateMethod then some c.FuncPtr else none

def getVirtualInheritedMethodDecl (c : VTableComponent) : Option Pointer :=
  if c.TheKind = CK_VirtualInheritedMethod then some c.FuncPtr else none

def getVirtualBaseClass (c : VTableComponent) : Option Pointer :=
  if c.TheKind = CK_VirtualInheritedMethod then some c.VirtualInfo else none

def getTemplateParams (c : VTableComponent) : Option Pointer :=
  if c.TheKind = CK_TemplateParamInfo ∨ c.TheKind = CK_VirtualTemplateMethod then
    some (if c.TheKind = CK_TemplateParamInfo then c.TemplateParams else c.TemplateInfo)
  else none

def isStaticKind (c : VTableComponent) : Bool :=
  decide (c.TheKind = CK_StaticFunctionPointer) ||
  decide (c.TheKind = CK_StaticLambda) ||
  decide (c.TheKind = CK_StaticStdFunction)

def isVirtualKind (c : VTableComponent) : Bool :=
  decide (c.TheKind = CK_VirtualTemplateMethod) ||
  decide (c.TheKind = CK_VirtualInheritedMethod)

def isMutableLambda (c : VTableComponent) : Bool :=
  decide (c.TheKind = CK_StaticLambda) && c.IsMutable

def isVirtualTemplateMethod (c : VTableComponent) : Bool :=
  decide (c.TheKind = CK_VirtualTemplateMethod)

def isVirtualInheritedMethod (c : VTableComponent) : Bool :=
  decide (c.TheKind = CK_VirtualInheritedMethod)

def getStaticFuncPtr (c : VTableComponent) : Option Pointer :=
  if c.isStaticKind || c.isVirtualKind then some c.FuncPtr else none

def isFunctionPointerKind (ComponentKind : Kind) : Bool :=
  decide (ComponentKind = CK_FunctionPointer) ||
  decide (ComponentKind = CK_StaticFunctionPointer) ||
  decide (ComponentKind = CK_StaticStdFunction) ||
  decide (ComponentKind = CK_StaticLambda) ||
  decide (ComponentKind = CK_CompleteDtorPointer) ||
  decide (ComponentKind = CK_DeletingDtorPointer)

def isUsedFunctionPointerKind (ComponentKind : Kind) : Bool :=
  decide (ComponentKind = CK_FunctionPointer) ||
  decide (ComponentKind = CK_StaticFunctionPointer) ||
  decide (ComponentKind = CK_StaticStdFunction) ||
  decide (ComponentKind = CK_StaticLambda) ||
  decide (ComponentKind = CK_CompleteDtorPointer) ||
  decide (ComponentKind = CK_DeletingDtorPointer)

def isUsedFunctionPointer (c : VTableComponent) : Bool :=
  isUsedFunctionPointerKind c.getKind

/-- The member `operator==`. -/
def operatorEq (c Other : VTableComponent) : Bool :=
  if c.TheKind ≠ Other.TheKind then false
  else if c.TheKind = CK_TemplateParamInfo then
    decide (c.TemplateParams = Other.TemplateParams) &&
    decide (c.HasTemplateParams = Other.HasTemplateParams)
  else if c.TheKind = CK_VCallOffset ∨ c.TheKind = CK_VBaseOffset ∨
      c.TheKind = CK_OffsetToTop then
    decide (c.Offset = Other.Offset)
  else if c.isStaticKind then
    decide (c.FuncPtr = Other.FuncPtr) &&
    decide (c.TemplateInfo = Other.TemplateInfo) &&
    decide (c.InheritanceInfo = Other.InheritanceInfo) &&
    decide (c.IsMutable = Other.IsMutable) &&
    decide (c.HasTemplateParams = Other.HasTemplateParams) &&
    decide (c.IsVirtualInherited = Other.IsVirtualInherited)
  else
    decide (c.Ptr = Other.Ptr)

/-- The member `operator!=`. -/
def operatorNe (c Other : VTableComponent) : Bool :=
  !(operatorEq c Other)

end VTableComponent

/-- The number of values of the unsigned type `size_t` (64 bits wide):
arithmetic on `size_t` is taken modulo this number. -/
def SIZE_MODULUS : Nat := 2 ^ 64

/-- The data members of `VTableLayout` read by the table queries: the start
offsets of the sub-tables and the component array.  The thunk list and the
address-point maps are read by none of the functions below and are left out. -/
structure VTableLayout where
  VTableIndices : List Nat
  VTableComponents : List VTableComponent
deriving DecidableEq, Repr

namespace VTableLayout

def vtable_components (L : VTableLayout) : List VTableComponent := L.VTableComponents

def getNumVTables (L : VTableLayout) : Nat :=
  if L.VTableIndices.isEmpty then 1 else L.VTableIndices.length

/-- The member `getVTableOffset`.  `VTableIndices[i]` is an indexed read of an
array; a read at or past its length has no value, which is `none` here. -/
def getVTableOffset (L : VTableLayout) (i : Nat) : Option Nat :=
  if L.VTableIndices.isEmpty then some 0 else L.VTableIndices[i]?

/-- The member `getVTableSize`.  Both `i + 1` and the final subtraction are
computed in `size_t`. -/
def getVTableSize (L : VTableLayout) (i : Nat) : Option Nat :=
  match L.getVTableOffset i with
  | none => none
  | some thisIndex =>
    match (if (i + 1) % SIZE_MODULUS = L.getNumVTables
           then some L.VTableComponents.length
           else L.getVTableOffset ((i + 1) % SIZE_MODULUS)) with
    | none => none
    | some nextIndex => some ((nextIndex + SIZE_MODULUS - thisIndex) % SIZE_MODULUS)

end VTableLayout

/-- Modelled from the spec: the type `ThunkInfo` (clang/Basic/Thunk.h) is
declared elsewhere; the spec describes it as "adjustment data (this-pointer
offset, optional return-value offset)". -/
structure ThunkInfo where
  This : Int
  Return : Option Int
deriving DecidableEq, Repr

/-- The type `VTableContextBase::ThunkInfoVectorTy`, a vector of thunks. -/
abbrev ThunkInfoVectorTy := List ThunkInfo

/-- The data members of `VTableContextBase`: the thunk cache, a map from a
method declaration to the thunks it needs (no entry is `none`), and the ABI
discriminant. -/
structure VTableContextBase where
  Thunks : Pointer → Option ThunkInfoVectorTy
  IsMicrosoftABI : Bool

namespace VTableContextBase

def isMicrosoft (VT : VTableContextBase) : Bool := VT.IsMicrosoftABI

/-- The protected constructor `VTableContextBase(bool MS)`; the thunk cache
starts empty. -/
def ctor (MS : Bool) : VTableContextBase :=
  { Thunks := fun _ => none, IsMicrosoftABI := MS }

end VTableContextBase

namespace ItaniumVTableContext

def classof (VT : VTableContextBase) : Bool := !VT.isMicrosoft

end ItaniumVTableContext

/-- Modelled from the spec: the enumeration `CXXDtorType` (clang/Basic/ABI.h)
is declared elsewhere.  The spec speaks of "a complete-object destructor" and
the header names the enumerator `Dtor_Complete` only; every other enumerator
is `other n`. -/
inductive CXXDtorType where
  | Dtor_Complete
  | other (n : Nat)
deriving DecidableEq, Repr

/-- Modelled from the spec: the class `GlobalDecl` (clang/AST/GlobalDecl.h) is
declared elsewhere.  It pairs a declaration with the variant it denotes; for
"a complete-object destructor" the header asks whether the declaration is a
`CXXDestructorDecl` and which destructor variant the pair names. -/
structure GlobalDecl where
  Decl : Pointer
  DeclIsCXXDestructorDecl : Bool
  DtorType : CXXDtorType
deriving DecidableEq, Repr

namespace GlobalDecl

def getDecl (GD : GlobalDecl) : Pointer := GD.Decl

/-- The test `isa<CXXDestructorDecl>(GD.getDecl())`. -/
def isaCXXDestructorDecl (GD : GlobalDecl) : Bool := GD.DeclIsCXXDestructorDecl

def getDtorType (GD : GlobalDecl) : CXXDtorType := GD.DtorType

end GlobalDecl

namespace MicrosoftVTableContext

open CXXDtorType

def classof (VT : VTableContextBase) : Bool := VT.isMicrosoft

/-- The override `MicrosoftVTableContext::getThunkInfo`.  `State` is the whole
state of the context object, thunk cache included.  The base-class member
`VTableContextBase::getThunkInfo` is only declared in the header, so it is the
parameter `baseGetThunkInfo`, which returns a thunk list or null together with
the state it leaves behind. -/
def getThunkInfo {State : Type}
    (baseGetThunkInfo : GlobalDecl → State → Option ThunkInfoVectorTy × State)
    (GD : GlobalDecl) (self : State) : Option ThunkInfoVectorTy × State :=
  if GD.isaCXXDestructorDecl && decide (GD.getDtorType = Dtor_Complete) then
    (none, self)
  else
    baseGetThunkInfo GD self

end MicrosoftVTableContext

/-- The enumeration `ItaniumVTableContext::VTableComponentLayout`. -/
inductive ItaniumVTableContext.VTableComponentLayout where
  | Pointer
  | Relative
deriving DecidableEq, Repr

/-- The data members of `ItaniumVTableContext`, those of its base class
first.  Every `DenseMap` is a function from keys to values, with `none` for a
key that has no entry. -/
structure ItaniumVTableContext where
  toVTableContextBase : VTableContextBase
  MethodVTableIndices : GlobalDecl → Option Int
  VTableLayouts : Pointer → Option VTableLayout
  VirtualBaseClassOffsetOffsets : Pointer × Pointer → Option CharUnits
  OriginalMethodMap : Pointer → Option Pointer
  ComponentLayout : ItaniumVTableContext.VTableComponentLayout

/-- The data members of `MethodVFTableLocation`; the two `uint64_t` members
are natural numbers, which the class only stores and compares. -/
structure MethodVFTableLocation where
  VBTableIndex : Nat
  VBase : Pointer
  VFPtrOffset : CharUnits
  Index : Nat
deriving DecidableEq, Repr

namespace MethodVFTableLocation

/-- The default constructor `MethodVFTableLocation()`. -/
def ctor : MethodVFTableLocation :=
  { VBTableIndex := 0, VBase := nullptr, VFPtrOffset := 0, Index := 0 }

/-- The member `operator<`, `none` when its assertion `VBase != other.VBase`
fails.  The comparison of the two `std::tie` pairs is the lexicographic one of
`std::tuple`: the first members decide unless neither is below the other. -/
def operatorLt (a other : MethodVFTableLocation) : Option Bool :=
  if a.VBTableIndex ≠ other.VBTableIndex then
    if a.VBase ≠ other.VBase then
      some (decide (a.VBTableIndex < other.VBTableIndex))
    else none
  else
    some (decide (a.VFPtrOffset < other.VFPtrOffset) ||
      (!decide (other.VFPtrOffset < a.VFPtrOffset) && decide (a.Index < other.Index)))

end MethodVFTableLocation

namespace ItaniumVTableContext

/-- The member `setOriginalMethod`: `OriginalMethodMap[Key] = Val`, which
creates the entry for `Key` when there is none and overwrites it otherwise. -/
def setOriginalMethod (C : ItaniumVTableContext) (Key Val : Pointer) : ItaniumVTableContext :=
  { C with OriginalMethodMap := fun K => if K = Key then some Val else C.OriginalMethodMap K }

def getOriginalMethodMap (C : ItaniumVTableContext) : Pointer → Option Pointer :=
  C.OriginalMethodMap

end ItaniumVTableContext

/-- The type `VPtrInfo::BasePath`, a vector of class declarations. -/
abbrev VPtrInfo.BasePath := List Pointer

/-- The data members of `VPtrInfo`, in declaration order. -/
structure VPtrInfo where
  ObjectWithVPtr : Pointer
  IntroducingObject : Pointer
  NonVirtualOffset : CharUnits
  MangledPath : VPtrInfo.BasePath
  NextBaseToMangle : Pointer
  ContainingVBases : VPtrInfo.BasePath
  PathToIntroducingObject : VPtrInfo.BasePath
  FullOffsetInMDC : CharUnits
deriving DecidableEq, Repr

namespace VPtrInfo

/-- The constructor `VPtrInfo(const CXXRecordDecl *RD)`.  The members it does
not name are default-constructed: the three paths are empty vectors and the
two offsets are zero. -/
def ctor (RD : Pointer) : VPtrInfo :=
  { ObjectWithVPtr := RD
    IntroducingObject := RD
    NonVirtualOffset := 0
    MangledPath := []
    NextBaseToMangle := RD
    ContainingVBases := []
    PathToIntroducingObject := []
    FullOffsetInMDC := 0 }

/-- The member `getVBaseWithVPtr`; `front()` is the first element of a vector
that is not empty. -/
def getVBaseWithVPtr (V : VPtrInfo) : Pointer :=
  if V.ContainingVBases.isEmpty then nullptr
  else
    match V.ContainingVBases with
    | [] => nullptr
    | front :: _ => front

end VPtrInfo

/-! Theorems about `VTableComponent`. -/

namespace VTableComponent

open Kind

/-- Claim C1, refuted as stated: built with function 1 and the non-null
address 2, the component hands back 2 from `getStaticFunctionDecl`, not the
function it was built from. -/
theorem getStaticFunctionDecl_MakeStaticFunction_addr_counterexample :
    getStaticFunctionDecl (MakeStaticFunction ⟨0, 0, 0⟩ 1 ⟨0⟩ 2 0 false) = some 2 ∧
    getStaticFunctionDecl (MakeStaticFunction ⟨0, 0, 0⟩ 1 ⟨0⟩ 2 0 false) ≠ some 1 := by
  decide

/-- Claim C1, amended: `getStaticFunctionDecl` succeeds on every component
built by `MakeStaticFunction`, and returns the function `FD` when the address
`Addr` is null and `Addr` itself when it is not, for every introducing base,
every flag and whatever the unwritten storage held. -/
theorem getStaticFunctionDecl_MakeStaticFunction (junk : Indeterminate) (FD : Pointer)
    (Context : ASTContext) (Addr InheritedFrom : Pointer) (IsVirtual : Bool) :
    getStaticFunctionDecl (MakeStaticFunction junk FD Context Addr InheritedFrom IsVirtual)
      = some (if Addr = nullptr then FD else Addr) := by
  by_cases h : Addr = nullptr <;> simp [getStaticFunctionDecl, MakeStaticFunction, h]

/-- Claim C2: two components whose kinds differ are never equal, `operator==`
is false and `operator!=` is true, whatever the payload and flags hold. -/
theorem operatorEq_of_kind_ne (a b : VTableComponent) (h : a.getKind ≠ b.getKind) :
    operatorEq a b = false ∧ operatorNe a b = true := by
  have hk : a.TheKind ≠ b.TheKind := h
  simp [operatorEq, operatorNe, hk]

/-- Claim C2 at a concrete pair: an RTTI component and a function-pointer
component holding the same pointer. -/
theorem operatorEq_of_kind_ne_witness :
    (MakeRTTI ⟨0, 0, 0⟩ 7).getKind ≠ (MakeFunction ⟨0, 0, 0⟩ 7).getKind ∧
    operatorEq (MakeRTTI ⟨0, 0, 0⟩ 7) (MakeFunction ⟨0, 0, 0⟩ 7) = false ∧
    operatorNe (MakeRTTI ⟨0, 0, 0⟩ 7) (MakeFunction ⟨0, 0, 0⟩ 7) = true :=
  ⟨by decide, operatorEq_of_kind_ne _ _ (by decide)⟩

/-- Claim C3: for two components of the same static kind, `operator==` is true
exactly when they agree on the function pointer or address, the template
info, the introducing base, the mutability flag, the has-template-params flag
and the virtual-inheritance flag. -/
theorem operatorEq_static_iff (a b : VTableComponent) (hk : a.getKind = b.getKind)
    (hs : a.isStaticKind = true) :
    operatorEq a b = true ↔
      a.FuncPtr = b.FuncPtr ∧ a.TemplateInfo = b.TemplateInfo ∧
      a.InheritanceInfo = b.InheritanceInfo ∧ a.IsMutable = b.IsMutable ∧
      a.HasTemplateParams = b.HasTemplateParams ∧
      a.IsVirtualInherited = b.IsVirtualInherited := by
  have hk2 : a.TheKind = b.TheKind := hk
  have hs2 := hs
  simp only [isStaticKind, Bool.or_eq_true, decide_eq_true_eq] at hs2
  have h1 : a.TheKind ≠ CK_TemplateParamInfo := by
    rcases hs2 with (h | h) | h <;> rw [h] <;> decide
  have h2 : ¬ (a.TheKind = CK_VCallOffset ∨ a.TheKind = CK_VBaseOffset ∨
      a.TheKind = CK_OffsetToTop) := by
    rcases hs2 with (h | h) | h <;> rw [h] <;> decide
  simp [operatorEq, hk2.symm, h1, h2, hs, and_assoc]

/-- Claim C3 at a concrete pair: two mutable static lambdas that differ in the
introducing base only. -/
theorem operatorEq_static_iff_witness :
    (MakeStaticLambda ⟨0, 0, 0⟩ 5 ⟨0⟩ true 0 7 false).getKind
      = (MakeStaticLambda ⟨1, 2, 3⟩ 5 ⟨0⟩ true 0 8 false).getKind ∧
    (MakeStaticLambda ⟨0, 0, 0⟩ 5 ⟨0⟩ true 0 7 false).isStaticKind = true ∧
    (operatorEq (MakeStaticLambda ⟨0, 0, 0⟩ 5 ⟨0⟩ true 0 7 false)
        (MakeStaticLambda ⟨1, 2, 3⟩ 5 ⟨0⟩ true 0 8 false) = true ↔
      (MakeStaticLambda ⟨0, 0, 0⟩ 5 ⟨0⟩ true 0 7 false).FuncPtr
        = (MakeStaticLambda ⟨1, 2, 3⟩ 5 ⟨0⟩ true 0 8 false).FuncPtr ∧
      (MakeStaticLambda ⟨0, 0, 0⟩ 5 ⟨0⟩ true 0 7 false).TemplateInfo
        = (MakeStaticLambda ⟨1, 2, 3⟩ 5 ⟨0⟩ true 0 8 false).TemplateInfo ∧
      (MakeStaticLambda ⟨0, 0, 0⟩ 5 ⟨0⟩ true 0 7 false).InheritanceInfo
        = (MakeStaticLambda ⟨1, 2, 3⟩ 5 ⟨0⟩ true 0 8 false).InheritanceInfo ∧
      (MakeStaticLambda ⟨0, 0, 0⟩ 5 ⟨0⟩ true 0 7 false).IsMutable
        = (MakeStaticLambda ⟨1, 2, 3⟩ 5 ⟨0⟩ true 0 8 false).IsMutable ∧
      (MakeStaticLambda ⟨0, 0, 0⟩ 5 ⟨0⟩ true 0 7 false).HasTemplateParams
        = (MakeStaticLambda ⟨1, 2, 3⟩ 5 ⟨0⟩ true 0 8 false).HasTemplateParams ∧
      (MakeStaticLambda ⟨0, 0, 0⟩ 5 ⟨0⟩ true 0 7 false).IsVirtualInherited
        = (MakeStaticLambda ⟨1, 2, 3⟩ 5 ⟨0⟩ true 0 8 false).IsVirtualInherited) :=
  ⟨by decide, by decide, operatorEq_static_iff _ _ (by decide) (by decide)⟩

/-- Claim C4: offset kinds compare offsets.  For each of `MakeVCallOffset`,
`MakeVBaseOffset` and `MakeOffsetToTop`, two components built by it are equal
under `operator==` exactly when the two signed offsets are equal. -/
theorem operatorEq_offset_iff (j₁ j₂ : Indeterminate) (a b : CharUnits) :
    (operatorEq (MakeVCallOffset j₁ a) (MakeVCallOffset j₂ b) = true ↔ a = b) ∧
    (operatorEq (MakeVBaseOffset j₁ a) (MakeVBaseOffset j₂ b) = true ↔ a = b) ∧
    (operatorEq (MakeOffsetToTop j₁ a) (MakeOffsetToTop j₂ b) = true ↔ a = b) := by
  simp [operatorEq, MakeVCallOffset, MakeVBaseOffset, MakeOffsetToTop, ctor]

/-- Claim C5: the remaining classic kinds compare by referenced declaration.
For each of `MakeRTTI`, `MakeFunction`, `MakeCompleteDtor`, `MakeDeletingDtor`
and `MakeUnusedFunction`, two components built by it are equal under
`operator==` exactly when the two declarations are the same. -/
theorem operatorEq_decl_iff (j₁ j₂ : Indeterminate) (p q : Pointer) :
    (operatorEq (MakeRTTI j₁ p) (MakeRTTI j₂ q) = true ↔ p = q) ∧
    (operatorEq (MakeFunction j₁ p) (MakeFunction j₂ q) = true ↔ p = q) ∧
    (operatorEq (MakeCompleteDtor j₁ p) (MakeCompleteDtor j₂ q) = true ↔ p = q) ∧
    (operatorEq (MakeDeletingDtor j₁ p) (MakeDeletingDtor j₂ q) = true ↔ p = q) ∧
    (operatorEq (MakeUnusedFunction j₁ p) (MakeUnusedFunction j₂ q) = true ↔ p = q) := by
  simp [operatorEq, MakeRTTI, MakeFunction, MakeCompleteDtor, MakeDeletingDtor,
    MakeUnusedFunction, ctor, isStaticKind]

/-- Claim C6, refuted as stated: two `VirtualTemplateMethod` components built
from the same method, address and introducing base but from the different
template-parameter lists 10 and 20 compare equal. -/
theorem operatorEq_MakeVirtualTemplateMethod_counterexample :
    (10 : Pointer) ≠ 20 ∧
    operatorEq (MakeVirtualTemplateMethod ⟨0, 0, 0⟩ 1 10 0 0)
      (MakeVirtualTemplateMethod ⟨0, 0, 0⟩ 1 20 0 0) = true := by
  decide

/-- Claim C6, amended: `operator==` on `VirtualTemplateMethod` components does
not look at the template-parameter list.  For every method, address and
introducing base and for all lists `TPL₁` and `TPL₂`, the two components
compare equal, although each keeps its own list in `StaticFunc.TemplateInfo`. -/
theorem operatorEq_MakeVirtualTemplateMethod (j₁ j₂ : Indeterminate)
    (MD TPL₁ TPL₂ Addr InheritedFrom : Pointer) :
    operatorEq (MakeVirtualTemplateMethod j₁ MD TPL₁ Addr InheritedFrom)
      (MakeVirtualTemplateMethod j₂ MD TPL₂ Addr InheritedFrom) = true ∧
    (MakeVirtualTemplateMethod j₁ MD TPL₁ Addr InheritedFrom).TemplateInfo = TPL₁ ∧
    (MakeVirtualTemplateMethod j₂ MD TPL₂ Addr InheritedFrom).TemplateInfo = TPL₂ := by
  simp [operatorEq, MakeVirtualTemplateMethod, ctor, isStaticKind]

/-- Claim C7: every single-kind accessor succeeds on a component exactly when
the component has the one kind the accessor asserts, and fails on every other
kind; `getFunctionDecl` in particular fails on complete-destructor,
deleting-destructor and unused-function components. -/
theorem accessor_isSome_iff (c : VTableComponent) (junk : Indeterminate) (D : Pointer) :
    ((getVCallOffset c).isSome = true ↔ c.getKind = CK_VCallOffset) ∧
    ((getVBaseOffset c).isSome = true ↔ c.getKind = CK_VBaseOffset) ∧
    ((getOffsetToTop c).isSome = true ↔ c.getKind = CK_OffsetToTop) ∧
    ((getRTTIDecl c).isSome = true ↔ c.getKind = CK_RTTI) ∧
    ((getFunctionDecl c).isSome = true ↔ c.getKind = CK_FunctionPointer) ∧
    ((getStaticFunctionDecl c).isSome = true ↔ c.getKind = CK_StaticFunctionPointer) ∧
    ((getStaticLambdaDecl c).isSome = true ↔ c.getKind = CK_StaticLambda) ∧
    ((getStaticStdFunctionDecl c).isSome = true ↔ c.getKind = CK_StaticStdFunction) ∧
    ((getVirtualTemplateMethodDecl c).isSome = true ↔
      c.getKind = CK_VirtualTemplateMethod) ∧
    ((getVirtualInheritedMethodDecl c).isSome = true ↔
      c.getKind = CK_VirtualInheritedMethod) ∧
    ((getVirtualBaseClass c).isSome = true ↔ c.getKind = CK_VirtualInheritedMethod) ∧
    getFunctionDecl (MakeCompleteDtor junk D) = none ∧
    getFunctionDecl (MakeDeletingDtor junk D) = none ∧
    getFunctionDecl (MakeUnusedFunction junk D) = none := by
  refine ⟨?_, ?_, ?_, ?_, ?_, ?_, ?_, ?_, ?_, ?_, ?_, ?_, ?_, ?_⟩
  · unfold getVCallOffset getKind; split <;> simp_all
  · unfold getVBaseOffset getKind; split <;> simp_all
  · unfold getOffsetToTop getKind; split <;> simp_all
  · unfold getRTTIDecl getKind; split <;> simp_all
  · unfold getFunctionDecl getKind; split <;> simp_all
  · unfold getStaticFunctionDecl getKind; split <;> simp_all
  · unfold getStaticLambdaDecl getKind; split <;> simp_all
  · unfold getStaticStdFunctionDecl getKind; split <;> simp_all
  · unfold getVirtualTemplateMethodDecl getKind; split <;> simp_all
  · unfold getVirtualInheritedMethodDecl getKind; split <;> simp_all
  · unfold getVirtualBaseClass getKind; split <;> simp_all
  · simp [getFunctionDecl, MakeCompleteDtor]
  · simp [getFunctionDecl, MakeDeletingDtor]
  · simp [getFunctionDecl, MakeUnusedFunction]

/-- Claim C8: mutability flag fidelity.  A component built by
`MakeStaticLambda` with mutability argument `m` answers `m` to
`isMutableLambda`, for every call operator, address, introducing base and
virtual-inheritance flag. -/
theorem isMutableLambda_MakeStaticLambda (junk : Indeterminate) (CallOp : Pointer)
    (Context : ASTContext) (m : Bool) (Addr InheritedFrom : Pointer) (IsVirtual : Bool) :
    isMutableLambda (MakeStaticLambda junk CallOp Context m Addr InheritedFrom IsVirtual)
      = m := by
  simp [isMutableLambda, MakeStaticLambda]

/-- Claim C9: `isUsedFunctionPointerKind` is true exactly for the kinds
FunctionPointer, CompleteDtorPointer, DeletingDtorPointer,
StaticFunctionPointer, StaticLambda and StaticStdFunction; it is false for
UnusedFunctionPointer and TemplateParamInfo; and `isUsedFunctionPointer` on a
component is that classifier applied to the component's kind. -/
theorem isUsedFunctionPointerKind_iff (k : Kind) (c : VTableComponent) :
    (isUsedFunctionPointerKind k = true ↔
      k = CK_FunctionPointer ∨ k = CK_CompleteDtorPointer ∨ k = CK_DeletingDtorPointer ∨
      k = CK_StaticFunctionPointer ∨ k = CK_StaticLambda ∨ k = CK_StaticStdFunction) ∧
    isUsedFunctionPointerKind CK_UnusedFunctionPointer = false ∧
    isUsedFunctionPointerKind CK_TemplateParamInfo = false ∧
    isUsedFunctionPointer c = isUsedFunctionPointerKind c.getKind := by
  refine ⟨?_, by decide, by decide, rfl⟩
  cases k <;> decide

/-- Claim C10, evaluated on the code: `isFunctionPointerKind` answers false on
`CK_UnusedFunctionPointer`, as `isUsedFunctionPointerKind` does, and the two
classifiers agree on every kind, so they differ on none. -/
theorem isFunctionPointerKind_unused (k : Kind) :
    isFunctionPointerKind CK_UnusedFunctionPointer = false ∧
    isUsedFunctionPointerKind CK_UnusedFunctionPointer = false ∧
    isFunctionPointerKind k = isUsedFunctionPointerKind k := by
  refine ⟨by decide, by decide, rfl⟩

/-- Claim C13: offset components round-trip their signed offset.  For every
offset `o`, negative, zero or positive, each of the three offset accessors
succeeds on the component built by the matching factory and returns `o`. -/
theorem offset_roundtrip (junk : Indeterminate) (o : CharUnits) :
    getVCallOffset (MakeVCallOffset junk o) = some o ∧
    getVBaseOffset (MakeVBaseOffset junk o) = some o ∧
    getOffsetToTop (MakeOffsetToTop junk o) = some o := by
  refine ⟨?_, ?_, ?_⟩
  · simp [getVCallOffset, MakeVCallOffset]
  · simp [getVBaseOffset, MakeVBaseOffset]
  · simp [getOffsetToTop, MakeOffsetToTop]

/-- Claim C14: the RTTI identity is placed verbatim into the component.  For
every class reference `RD`, null included, `MakeRTTI RD` has kind RTTI and
`getRTTIDecl` succeeds on it and returns `RD`. -/
theorem getRTTIDecl_MakeRTTI (junk : Indeterminate) (RD : Pointer) :
    (MakeRTTI junk RD).getKind = CK_RTTI ∧
    getRTTIDecl (MakeRTTI junk RD) = some RD ∧
    getRTTIDecl (MakeRTTI junk nullptr) = some nullptr := by
  simp [getRTTIDecl, MakeRTTI, getKind]

/-- Claim C15: a VirtualInheritedMethod component carries its virtual base.
For every method, virtual base, address and introducing base,
`getVirtualBaseClass` succeeds on the built component and returns the virtual
base, and `isVirtualInheritedMethod` is true on it. -/
theorem getVirtualBaseClass_MakeVirtualInheritedMethod (junk : Indeterminate)
    (MD VBase Addr InheritedFrom : Pointer) :
    getVirtualBaseClass (MakeVirtualInheritedMethod junk MD VBase Addr InheritedFrom)
      = some VBase ∧
    isVirtualInheritedMethod (MakeVirtualInheritedMethod junk MD VBase Addr InheritedFrom)
      = true := by
  simp [getVirtualBaseClass, isVirtualInheritedMethod, MakeVirtualInheritedMethod]

/-- Claim C16: a VirtualTemplateMethod component carries its template-parameter
list.  For every method, list, address and introducing base,
`getTemplateParams` succeeds on the built component and returns the list. -/
theorem getTemplateParams_MakeVirtualTemplateMethod (junk : Indeterminate)
    (MD TPL Addr InheritedFrom : Pointer) :
    getTemplateParams (MakeVirtualTemplateMethod junk MD TPL Addr InheritedFrom)
      = some TPL := by
  simp [getTemplateParams, MakeVirtualTemplateMethod]

/-- Claim C17: a TemplateParamInfo component threads the template-parameter
identity through unchanged.  For every list and every introducing base, null
or not, `getTemplateParams` succeeds on the built component and returns the
list: the introducing base is written to `StaticFunc.InheritanceInfo`, which
lies after the word that holds `TemplateParams`, and both values are kept. -/
theorem getTemplateParams_MakeTemplateParamInfo (junk : Indeterminate)
    (TPL InheritedFrom : Pointer) :
    getTemplateParams (MakeTemplateParamInfo junk TPL InheritedFrom) = some TPL ∧
    getTemplateParams (MakeTemplateParamInfo junk TPL nullptr) = some TPL ∧
    (MakeTemplateParamInfo junk TPL InheritedFrom).InheritanceInfo = InheritedFrom := by
  simp [getTemplateParams, MakeTemplateParamInfo]

/-- Claim C18: a StaticStdFunction component records its template-parameter
list.  The built component stores the list as its template info, its
`HasTemplateParams` flag is set exactly when the list is non-null, and two
components built from the same function, address and introducing base are
equal under `operator==` exactly when their lists are the same, so two that
differ in the list only are unequal. -/
theorem MakeStaticStdFunction_templateInfo (j₁ j₂ : Indeterminate) (FD : Pointer)
    (Context : ASTContext) (TPL TPL₂ Addr InheritedFrom : Pointer) :
    (MakeStaticStdFunction j₁ FD Context TPL Addr InheritedFrom).TemplateInfo = TPL ∧
    ((MakeStaticStdFunction j₁ FD Context TPL Addr InheritedFrom).HasTemplateParams = true
      ↔ TPL ≠ nullptr) ∧
    (operatorEq (MakeStaticStdFunction j₁ FD Context TPL Addr InheritedFrom)
        (MakeStaticStdFunction j₂ FD Context TPL₂ Addr InheritedFrom) = true
      ↔ TPL = TPL₂) := by
  refine ⟨?_, ?_, ?_⟩
  · simp [MakeStaticStdFunction]
  · simp [MakeStaticStdFunction]
  · constructor
    · intro h
      simp [operatorEq, MakeStaticStdFunction, isStaticKind] at h
      exact h.1
    · intro h
      subst h
      simp [operatorEq, MakeStaticStdFunction, isStaticKind]

/-- Claim C19, evaluated on the code: `MakeStaticFunction` clears the
`HasTemplateParams` flag for every function, address, introducing base and
flag, so no argument list yields a StaticFunctionPointer component with the
flag set. -/
theorem MakeStaticFunction_hasTemplateParams (junk : Indeterminate) (FD : Pointer)
    (Context : ASTContext) (Addr InheritedFrom : Pointer) (IsVirtual : Bool) :
    (MakeStaticFunction junk FD Context Addr InheritedFrom IsVirtual).getKind
      = CK_StaticFunctionPointer ∧
    (MakeStaticFunction junk FD Context Addr InheritedFrom IsVirtual).HasTemplateParams
      = false := by
  simp [MakeStaticFunction, getKind]

end VTableComponent

/-! Theorems about `VTableLayout` and the vtable contexts. -/

namespace VTableLayout

open VTableComponent

/-- Claim C11: an empty sequence of sub-table start offsets means exactly one
table occupying the whole array.  For every layout whose `VTableIndices` is
empty (and whose component count is a `size_t` value), `getNumVTables` is 1,
`getVTableOffset 0` is 0 and `getVTableSize 0` is the number of components. -/
theorem empty_indices_single_table (L : VTableLayout) (h : L.VTableIndices = [])
    (hsz : L.VTableComponents.length < SIZE_MODULUS) :
    L.getNumVTables = 1 ∧ L.getVTableOffset 0 = some 0 ∧
    L.getVTableSize 0 = some L.VTableComponents.length := by
  have hpos : 1 < SIZE_MODULUS := by decide
  have h1 : (0 + 1) % SIZE_MODULUS = 1 := Nat.mod_eq_of_lt hpos
  have hn : L.getNumVTables = 1 := by simp [getNumVTables, h]
  have ho : L.getVTableOffset 0 = some 0 := by simp [getVTableOffset, h]
  refine ⟨hn, ho, ?_⟩
  unfold getVTableSize
  rw [ho, h1, hn]
  simp only [if_true, Nat.sub_zero]
  rw [Nat.add_mod_right, Nat.mod_eq_of_lt hsz]

/-- Claim C11 at two concrete layouts without start offsets: one with no
component at all and one with two components. -/
theorem empty_indices_single_table_witness :
    (getNumVTables ⟨[], []⟩ = 1 ∧ getVTableOffset ⟨[], []⟩ 0 = some 0 ∧
      getVTableSize ⟨[], []⟩ 0 = some 0) ∧
    (getNumVTables ⟨[], [MakeRTTI ⟨0, 0, 0⟩ 7, MakeFunction ⟨0, 0, 0⟩ 9]⟩ = 1 ∧
      getVTableOffset ⟨[], [MakeRTTI ⟨0, 0, 0⟩ 7, MakeFunction ⟨0, 0, 0⟩ 9]⟩ 0 = some 0 ∧
      getVTableSize ⟨[], [MakeRTTI ⟨0, 0, 0⟩ 7, MakeFunction ⟨0, 0, 0⟩ 9]⟩ 0 = some 2) :=
  ⟨empty_indices_single_table ⟨[], []⟩ rfl (by decide),
   empty_indices_single_table ⟨[], [MakeRTTI ⟨0, 0, 0⟩ 7, MakeFunction ⟨0, 0, 0⟩ 9]⟩ rfl
     (by decide)⟩

end VTableLayout

namespace MicrosoftVTableContext

open CXXDtorType

/-- Claim C12: Microsoft thunk lookup short-circuits for complete destructors.
When the declaration is a destructor and the destructor type is
`Dtor_Complete`, `getThunkInfo` returns null and leaves the context state as
it was, whatever that state (thunk cache included) and whatever the base
lookup would do, so the base lookup plays no part; for every other global
declaration it returns what the base lookup returns, result and state. -/
theorem getThunkInfo_complete_dtor {State : Type}
    (baseGetThunkInfo : GlobalDecl → State → Option ThunkInfoVectorTy × State)
    (GD : GlobalDecl) (self : State) :
    (GD.isaCXXDestructorDecl = true ∧ GD.getDtorType = Dtor_Complete →
      getThunkInfo baseGetThunkInfo GD self = (none, self)) ∧
    (¬ (GD.isaCXXDestructorDecl = true ∧ GD.getDtorType = Dtor_Complete) →
      getThunkInfo baseGetThunkInfo GD self = baseGetThunkInfo GD self) := by
  constructor
  · rintro ⟨h1, h2⟩
    simp [getThunkInfo, h1, h2]
  · intro h
    unfold getThunkInfo
    split
    · rename_i hc
      simp only [Bool.and_eq_true, decide_eq_true_eq] at hc
      exact absurd hc h
    · rfl

/-- Claim C12 at a concrete context whose state is a call counter and whose
base lookup counts the call and answers with one thunk: the complete
destructor gets null and the counter stays 0, the deleting variant of the
same destructor and a plain method get the base answer and the counter
becomes 1. -/
theorem getThunkInfo_complete_dtor_witness :
    getThunkInfo (fun _ n => (some [⟨8, none⟩], n + 1)) ⟨5, true, Dtor_Complete⟩ (0 : Nat)
      = (none, 0) ∧
    getThunkInfo (fun _ n => (some [⟨8, none⟩], n + 1)) ⟨5, true, other 0⟩ (0 : Nat)
      = (some [⟨8, none⟩], 1) ∧
    getThunkInfo (fun _ n => (some [⟨8, none⟩], n + 1)) ⟨6, false, Dtor_Complete⟩ (0 : Nat)
      = (some [⟨8, none⟩], 1) :=
  ⟨(getThunkInfo_complete_dtor _ ⟨5, true, Dtor_Complete⟩ 0).1 ⟨rfl, rfl⟩,
   (getThunkInfo_complete_dtor _ ⟨5, true, other 0⟩ 0).2 (by decide),
   (getThunkInfo_complete_dtor _ ⟨6, false, Dtor_Complete⟩ 0).2 (by decide)⟩

end MicrosoftVTableContext

namespace VTableContextBase

/-- Claim C20: the ABI split is a closed two-variant choice.  For every
`VTableContextBase` value exactly one of `ItaniumVTableContext::classof` and
`MicrosoftVTableContext::classof` is true, and the Microsoft one equals
`isMicrosoft`. -/
theorem classof_exactly_one (VT : VTableContextBase) :
    ((ItaniumVTableContext.classof VT = true ∧ MicrosoftVTableContext.classof VT = false) ∨
      (ItaniumVTableContext.classof VT = false ∧ MicrosoftVTableContext.classof VT = true)) ∧
    MicrosoftVTableContext.classof VT = VT.isMicrosoft := by
  refine ⟨?_, rfl⟩
  unfold ItaniumVTableContext.classof MicrosoftVTableContext.classof
  cases VT.isMicrosoft <;> simp

end VTableContextBase

/-! Further theorems about `VTableComponent`: equality as a relation and the
shared accessors. -/

namespace VTableComponent

open Kind

/-- Claim C25: VirtualInheritedMethod components compare by referenced
declaration only.  Built without an address, two such components are equal
under `operator==` exactly when their methods are the same, whatever their
virtual bases and introducing bases: equal for one method, unequal for two
different methods. -/
theorem operatorEq_MakeVirtualInheritedMethod (j₁ j₂ : Indeterminate)
    (MD MD₁ MD₂ VB₁ VB₂ I₁ I₂ : Pointer) :
    operatorEq (MakeVirtualInheritedMethod j₁ MD VB₁ nullptr I₁)
      (MakeVirtualInheritedMethod j₂ MD VB₂ nullptr I₂) = true ∧
    (operatorEq (MakeVirtualInheritedMethod j₁ MD₁ VB₁ nullptr I₁)
        (MakeVirtualInheritedMethod j₂ MD₂ VB₂ nullptr I₂) = true ↔ MD₁ = MD₂) := by
  simp [operatorEq, MakeVirtualInheritedMethod, isStaticKind, nullptr]

/-- Claim C26: `operator==` is an equivalence relation, on the components the
factories produce and on every other value of the class: it is reflexive,
symmetric and transitive, and `operator!=` is its negation. -/
theorem operatorEq_equivalence (a b c : VTableComponent) :
    operatorEq a a = true ∧
    (operatorEq a b = true → operatorEq b a = true) ∧
    (operatorEq a b = true → operatorEq b c = true → operatorEq a c = true) ∧
    operatorNe a b = !operatorEq a b := by
  obtain ⟨ka, wa, ta, ia, va, ma, ha, ra, xa⟩ := a
  obtain ⟨kb, wb, tb, ib, vb, mb, hb, rb, xb⟩ := b
  obtain ⟨kc, wc, tc, ic, vc, mc, hc, rc, xc⟩ := c
  refine ⟨?_, ?_, ?_, rfl⟩
  · cases ka <;> simp [operatorEq, isStaticKind]
  · by_cases hab : ka = kb
    · subst hab
      cases ka <;> simp [operatorEq, isStaticKind] <;> intros <;> simp_all
    · simp [operatorEq, hab]
  · by_cases hab : ka = kb
    · subst hab
      by_cases hbc : ka = kc
      · subst hbc
        cases ka <;> simp [operatorEq, isStaticKind] <;> intros <;> simp_all
      · simp [operatorEq, hbc]
    · simp [operatorEq, hab]

/-- Claim C27: a supplied address replaces the declaration in every extended
slot kind.  With a non-null address, the components that `MakeStaticFunction`,
`MakeStaticLambda` and `MakeStaticStdFunction` (and the two virtual factories)
build from two functions and otherwise equal arguments are equal under
`operator==`, and built over the same storage they are the same value: the
result does not depend on the function passed. -/
theorem operatorEq_of_addr (j₁ j₂ : Indeterminate) (Context : ASTContext)
    (D₁ D₂ Addr B T : Pointer) (v m : Bool) (hAddr : Addr ≠ nullptr) :
    operatorEq (MakeStaticFunction j₁ D₁ Context Addr B v)
      (MakeStaticFunction j₂ D₂ Context Addr B v) = true ∧
    operatorEq (MakeStaticLambda j₁ D₁ Context m Addr B v)
      (MakeStaticLambda j₂ D₂ Context m Addr B v) = true ∧
    operatorEq (MakeStaticStdFunction j₁ D₁ Context T Addr B)
      (MakeStaticStdFunction j₂ D₂ Context T Addr B) = true ∧
    operatorEq (MakeVirtualTemplateMethod j₁ D₁ T Addr B)
      (MakeVirtualTemplateMethod j₂ D₂ T Addr B) = true ∧
    operatorEq (MakeVirtualInheritedMethod j₁ D₁ T Addr B)
      (MakeVirtualInheritedMethod j₂ D₂ T Addr B) = true ∧
    MakeStaticFunction j₁ D₁ Context Addr B v = MakeStaticFunction j₁ D₂ Context Addr B v ∧
    MakeStaticLambda j₁ D₁ Context m Addr B v = MakeStaticLambda j₁ D₂ Context m Addr B v ∧
    MakeStaticStdFunction j₁ D₁ Context T Addr B
      = MakeStaticStdFunction j₁ D₂ Context T Addr B ∧
    MakeVirtualTemplateMethod j₁ D₁ T Addr B = MakeVirtualTemplateMethod j₁ D₂ T Addr B ∧
    MakeVirtualInheritedMethod j₁ D₁ T Addr B
      = MakeVirtualInheritedMethod j₁ D₂ T Addr B := by
  simp [operatorEq, MakeStaticFunction, MakeStaticLambda, MakeStaticStdFunction,
    MakeVirtualTemplateMethod, MakeVirtualInheritedMethod, isStaticKind, hAddr]

/-- Claim C27 at the address 64 and the functions 1 and 2. -/
theorem operatorEq_of_addr_witness :
    (64 : Pointer) ≠ nullptr ∧
    operatorEq (MakeStaticFunction ⟨0, 0, 0⟩ 1 ⟨0⟩ 64 5 true)
      (MakeStaticFunction ⟨9, 9, 9⟩ 2 ⟨0⟩ 64 5 true) = true ∧
    operatorEq (MakeStaticLambda ⟨0, 0, 0⟩ 1 ⟨0⟩ true 64 5 true)
      (MakeStaticLambda ⟨9, 9, 9⟩ 2 ⟨0⟩ true 64 5 true) = true ∧
    operatorEq (MakeStaticStdFunction ⟨0, 0, 0⟩ 1 ⟨0⟩ 3 64 5)
      (MakeStaticStdFunction ⟨9, 9, 9⟩ 2 ⟨0⟩ 3 64 5) = true :=
  have h := operatorEq_of_addr ⟨0, 0, 0⟩ ⟨9, 9, 9⟩ ⟨0⟩ 1 2 64 5 3 true true (by decide)
  ⟨by decide, h.1, h.2.1, h.2.2.1⟩

/-- Claim C28: `getStaticFuncPtr` succeeds on a component exactly when its
kind is StaticFunctionPointer, StaticLambda, StaticStdFunction,
VirtualTemplateMethod or VirtualInheritedMethod, that is when `isStaticKind`
or `isVirtualKind` holds, and the two never hold together; on a component
built by one of the five factories from a declaration and an address it
returns the address when that is non-null and the declaration otherwise. -/
theorem getStaticFuncPtr_iff (c : VTableComponent) (junk : Indeterminate)
    (Context : ASTContext) (D Addr B T : Pointer) (v m : Bool) :
    ((getStaticFuncPtr c).isSome = true ↔
      c.getKind = CK_StaticFunctionPointer ∨ c.getKind = CK_StaticLambda ∨
      c.getKind = CK_StaticStdFunction ∨ c.getKind = CK_VirtualTemplateMethod ∨
      c.getKind = CK_VirtualInheritedMethod) ∧
    ((getStaticFuncPtr c).isSome = true ↔
      c.isStaticKind = true ∨ c.isVirtualKind = true) ∧
    ¬ (c.isStaticKind = true ∧ c.isVirtualKind = true) ∧
    getStaticFuncPtr (MakeStaticFunction junk D Context Addr B v)
      = some (if Addr ≠ nullptr then Addr else D) ∧
    getStaticFuncPtr (MakeStaticLambda junk D Context m Addr B v)
      = some (if Addr ≠ nullptr then Addr else D) ∧
    getStaticFuncPtr (MakeStaticStdFunction junk D Context T Addr B)
      = some (if Addr ≠ nullptr then Addr else D) ∧
    getStaticFuncPtr (MakeVirtualTemplateMethod junk D T Addr B)
      = some (if Addr ≠ nullptr then Addr else D) ∧
    getStaticFuncPtr (MakeVirtualInheritedMethod junk D T Addr B)
      = some (if Addr ≠ nullptr then Addr else D) := by
  refine ⟨?_, ?_, ?_, ?_, ?_, ?_, ?_, ?_⟩
  · obtain ⟨k, _, _, _, _, _, _, _, _⟩ := c
    cases k <;> simp [getStaticFuncPtr, isStaticKind, isVirtualKind, getKind]
  · unfold getStaticFuncPtr
    split <;> simp_all
  · obtain ⟨k, _, _, _, _, _, _, _, _⟩ := c
    cases k <;> simp [isStaticKind, isVirtualKind]
  · simp [getStaticFuncPtr, isStaticKind, isVirtualKind, MakeStaticFunction]
  · simp [getStaticFuncPtr, isStaticKind, isVirtualKind, MakeStaticLambda]
  · simp [getStaticFuncPtr, isStaticKind, isVirtualKind, MakeStaticStdFunction]
  · simp [getStaticFuncPtr, isStaticKind, isVirtualKind, MakeVirtualTemplateMethod]
  · simp [getStaticFuncPtr, isStaticKind, isVirtualKind, MakeVirtualInheritedMethod]

/-- Claim C29: `getTemplateParams` succeeds on a component exactly when its
kind is TemplateParamInfo or VirtualTemplateMethod and fails on every other
kind; it fails in particular on every StaticStdFunction component, also on one
built with a non-null template-parameter list. -/
theorem getTemplateParams_isSome_iff (c : VTableComponent) (junk : Indeterminate)
    (Context : ASTContext) (FD TPL Addr InheritedFrom : Pointer) :
    ((getTemplateParams c).isSome = true ↔
      c.getKind = CK_TemplateParamInfo ∨ c.getKind = CK_VirtualTemplateMethod) ∧
    getTemplateParams (MakeStaticStdFunction junk FD Context TPL Addr InheritedFrom)
      = none ∧
    getTemplateParams (MakeStaticStdFunction junk FD Context 16 Addr InheritedFrom)
      = none := by
  refine ⟨?_, ?_, ?_⟩
  · unfold getTemplateParams getKind
    split <;> simp_all
  · simp [getTemplateParams, MakeStaticStdFunction]
  · simp [getTemplateParams, MakeStaticStdFunction]

end VTableComponent

/-! Theorems about `MethodVFTableLocation`. -/

namespace MethodVFTableLocation

/-- The comparison fails its assertion exactly when the two `VBTableIndex`
values differ while the two `VBase` values are equal. -/
theorem operatorLt_eq_none_iff (a b : MethodVFTableLocation) :
    operatorLt a b = none ↔ a.VBTableIndex ≠ b.VBTableIndex ∧ a.VBase = b.VBase := by
  unfold operatorLt
  by_cases h1 : a.VBTableIndex = b.VBTableIndex
  · simp [h1]
  · by_cases h2 : a.VBase = b.VBase <;> simp [h1, h2]

/-- When the assertion holds, the answer is the lexicographic comparison of
the triples `(VBTableIndex, VFPtrOffset, Index)`. -/
theorem operatorLt_eq_some_iff (a b : MethodVFTableLocation) (r : Bool)
    (h : operatorLt a b = some r) :
    (r = true ↔
      a.VBTableIndex < b.VBTableIndex ∨
      (a.VBTableIndex = b.VBTableIndex ∧
        (a.VFPtrOffset < b.VFPtrOffset ∨
          (a.VFPtrOffset = b.VFPtrOffset ∧ a.Index < b.Index)))) := by
  unfold operatorLt at h
  by_cases h1 : a.VBTableIndex = b.VBTableIndex
  · simp only [h1, ne_eq, not_true_eq_false, if_false, Option.some.injEq] at h
    subst h
    simp only [h1, lt_self_iff_false, true_and, false_or, Bool.or_eq_true, Bool.and_eq_true,
      Bool.not_eq_true', decide_eq_true_eq, decide_eq_false_iff_not, not_lt]
    constructor
    · rintro (h | ⟨h2, h3⟩)
      · exact Or.inl h
      · rcases lt_or_eq_of_le h2 with h4 | h4
        · exact Or.inl h4
        · exact Or.inr ⟨h4, h3⟩
    · rintro (h | ⟨h2, h3⟩)
      · exact Or.inl h
      · exact Or.inr ⟨le_of_eq h2, h3⟩
  · by_cases h2 : a.VBase = b.VBase
    · simp [h1, h2] at h
    · simp only [ne_eq, h1, not_false_eq_true, if_true, h2, Option.some.injEq] at h
      subst h
      simp [h1]

/-- Claim C30: `operator<` is the lexicographic strict order on the triple
`(VBTableIndex, VFPtrOffset, Index)`.  Whenever its assertion holds the answer
is true exactly when the triple of `a` is lexicographically below that of `b`;
`a < a` is false; `a < b` and `b < c` give `a < c` whenever that comparison
passes its assertion; the answer does not change when the two `VBase` values
are replaced by others that pass the assertion; and the assertion fails
exactly when the `VBTableIndex` values differ while the `VBase` values are
equal. -/
theorem operatorLt_lexicographic (a b c : MethodVFTableLocation) (va vb : Pointer)
    (r r₂ : Bool) :
    (operatorLt a b = some r →
      (r = true ↔
        a.VBTableIndex < b.VBTableIndex ∨
        (a.VBTableIndex = b.VBTableIndex ∧
          (a.VFPtrOffset < b.VFPtrOffset ∨
            (a.VFPtrOffset = b.VFPtrOffset ∧ a.Index < b.Index))))) ∧
    operatorLt a a = some false ∧
    (operatorLt a b = some true → operatorLt b c = some true →
      operatorLt a c = some r → r = true) ∧
    (operatorLt a b = some r →
      operatorLt { a with VBase := va } { b with VBase := vb } = some r₂ → r₂ = r) ∧
    (operatorLt a b = none ↔ a.VBTableIndex ≠ b.VBTableIndex ∧ a.VBase = b.VBase) := by
  refine ⟨operatorLt_eq_some_iff a b r, ?_, ?_, ?_, operatorLt_eq_none_iff a b⟩
  · simp [operatorLt]
  · intro hab hbc hac
    have h1 := (operatorLt_eq_some_iff a b true hab).mp rfl
    have h2 := (operatorLt_eq_some_iff b c true hbc).mp rfl
    apply (operatorLt_eq_some_iff a c r hac).mpr
    rcases h1 with h1 | ⟨e1, h1⟩
    · rcases h2 with h2 | ⟨e2, h2⟩
      · exact Or.inl (lt_trans h1 h2)
      · exact Or.inl (e2 ▸ h1)
    · rcases h2 with h2 | ⟨e2, h2⟩
      · exact Or.inl (e1 ▸ h2)
      · refine Or.inr ⟨e1.trans e2, ?_⟩
        rcases h1 with h1 | ⟨f1, h1⟩
        · rcases h2 with h2 | ⟨f2, h2⟩
          · exact Or.inl (lt_trans h1 h2)
          · exact Or.inl (f2 ▸ h1)
        · rcases h2 with h2 | ⟨f2, h2⟩
          · exact Or.inl (f1 ▸ h2)
          · exact Or.inr ⟨f1.trans f2, lt_trans h1 h2⟩
  · intro hab hab2
    have h1 := operatorLt_eq_some_iff a b r hab
    have h2 := operatorLt_eq_some_iff { a with VBase := va } { b with VBase := vb } r₂ hab2
    simp only at h2
    exact Bool.eq_iff_iff.mpr (h2.trans h1.symm)

/-- Claim C30 at concrete locations: an ordered pair in different tables, the
same pair with the virtual bases made equal, which fails the assertion, and a
pair in one table ordered by offset and then by index. -/
theorem operatorLt_lexicographic_witness :
    operatorLt ⟨1, 10, 8, 3⟩ ⟨2, 20, 0, 0⟩ = some true ∧
    operatorLt ⟨2, 20, 0, 0⟩ ⟨1, 10, 8, 3⟩ = some false ∧
    operatorLt ⟨1, 10, 8, 3⟩ ⟨2, 10, 0, 0⟩ = none ∧
    operatorLt ⟨1, 10, 8, 3⟩ ⟨1, 10, 8, 4⟩ = some true ∧
    operatorLt ⟨1, 10, 8, 3⟩ ⟨1, 30, 16, 0⟩ = some true ∧
    operatorLt ⟨1, 10, -8, 3⟩ ⟨1, 10, -8, 3⟩ = some false := by
  have h := operatorLt_lexicographic ⟨1, 10, -8, 3⟩ ⟨1, 10, -8, 3⟩ ⟨1, 10, -8, 3⟩ 0 0
    true true
  exact ⟨by decide, by decide, by decide, by decide, by decide, h.2.1⟩

end MethodVFTableLocation

/-! Further theorems about `VTableLayout`: bounds and tiling. -/

namespace VTableLayout

open VTableComponent

/-- An in-range read of the start offsets yields the stored offset. -/
theorem getVTableOffset_of_lt (L : VTableLayout) (i : Nat)
    (hi : i < L.VTableIndices.length) :
    L.getVTableOffset i = some (L.VTableIndices.getD i L.VTableComponents.length) := by
  have hne : L.VTableIndices ≠ [] := by
    intro h
    rw [h] at hi
    exact absurd hi (Nat.not_lt_zero _)
  unfold getVTableOffset
  rw [if_neg (by simpa using hne)]
  rw [List.getD_eq_getElem _ _ hi, List.getElem?_eq_getElem hi]

/-- The start offset read at `i`, or the length of the component array when
`i` is past the last sub-table, is monotone in `i` for a non-decreasing list
of offsets that stay within the component array. -/
theorem getD_monotone (L : VTableLayout)
    (hmono : L.VTableIndices.Pairwise (fun x y => x ≤ y))
    (hle : ∀ x ∈ L.VTableIndices, x ≤ L.VTableComponents.length) :
    Monotone (fun i => L.VTableIndices.getD i L.VTableComponents.length) := by
  intro i j hij
  show L.VTableIndices.getD i _ ≤ L.VTableIndices.getD j _
  by_cases hj : j < L.VTableIndices.length
  · have hi : i < L.VTableIndices.length := lt_of_le_of_lt hij hj
    rw [List.getD_eq_getElem _ _ hi, List.getD_eq_getElem _ _ hj]
    rcases Nat.eq_or_lt_of_le hij with h | h
    · subst h
      exact le_refl _
    · exact List.pairwise_iff_getElem.mp hmono i j hi hj h
  · rw [List.getD_eq_default _ _ (not_lt.mp hj)]
    by_cases hi : i < L.VTableIndices.length
    · rw [List.getD_eq_getElem _ _ hi]
      exact hle _ (List.getElem_mem hi)
    · rw [List.getD_eq_default _ _ (not_lt.mp hi)]

/-- The size of sub-table `i` is the distance from its start offset to the
next one, the end of the component array standing in after the last. -/
theorem getVTableSize_of_lt (L : VTableLayout)
    (hmono : L.VTableIndices.Pairwise (fun x y => x ≤ y))
    (hle : ∀ x ∈ L.VTableIndices, x ≤ L.VTableComponents.length)
    (hsz : L.VTableComponents.length < SIZE_MODULUS)
    (hn : L.VTableIndices.length < SIZE_MODULUS)
    (i : Nat) (hi : i < L.VTableIndices.length) :
    L.getVTableSize i = some (L.VTableIndices.getD (i + 1) L.VTableComponents.length
      - L.VTableIndices.getD i L.VTableComponents.length) := by
  have hne : L.VTableIndices ≠ [] := by
    intro h
    rw [h] at hi
    exact absurd hi (Nat.not_lt_zero _)
  have hstep : L.VTableIndices.getD i L.VTableComponents.length
      ≤ L.VTableIndices.getD (i + 1) L.VTableComponents.length :=
    getD_monotone L hmono hle (Nat.le_add_right i 1)
  have hnum : L.getNumVTables = L.VTableIndices.length := by
    unfold getNumVTables
    rw [if_neg (by simpa using hne)]
  have hmod : (i + 1) % SIZE_MODULUS = i + 1 := Nat.mod_eq_of_lt (by omega)
  have hnext : (if (i + 1) % SIZE_MODULUS = L.getNumVTables
      then some L.VTableComponents.length
      else L.getVTableOffset ((i + 1) % SIZE_MODULUS))
      = some (L.VTableIndices.getD (i + 1) L.VTableComponents.length) := by
    rw [hmod, hnum]
    by_cases hlast : i + 1 = L.VTableIndices.length
    · rw [if_pos hlast, List.getD_eq_default _ _ (by omega)]
    · rw [if_neg hlast]
      exact getVTableOffset_of_lt L (i + 1) (by omega)
  have hbound : L.VTableIndices.getD (i + 1) L.VTableComponents.length < SIZE_MODULUS := by
    have := getD_monotone L hmono hle (show i + 1 ≤ max (i + 1) L.VTableIndices.length from
      le_max_left _ _)
    simp only at this
    rw [List.getD_eq_default _ _ (le_max_right _ _)] at this
    omega
  unfold getVTableSize
  rw [getVTableOffset_of_lt L i hi, hnext]
  simp only [Option.some.injEq]
  rw [show L.VTableIndices.getD (i + 1) L.VTableComponents.length + SIZE_MODULUS
        - L.VTableIndices.getD i L.VTableComponents.length
      = (L.VTableIndices.getD (i + 1) L.VTableComponents.length
        - L.VTableIndices.getD i L.VTableComponents.length) + SIZE_MODULUS by omega]
  rw [Nat.add_mod_right]
  exact Nat.mod_eq_of_lt (by omega)

/-- Claim C23: the sub-tables tile the component array.  For a layout whose
start offsets are non-empty, begin with 0, are non-decreasing and stay within
the component array (all sizes being `size_t` values), every sub-table but
the last ends where the next one starts, the last one ends at the number of
components, and the sizes of all sub-tables add up to the number of
components. -/
theorem subtables_tile (L : VTableLayout) (hne : L.VTableIndices ≠ [])
    (h0 : L.VTableIndices.head? = some 0)
    (hmono : L.VTableIndices.Pairwise (fun x y => x ≤ y))
    (hle : ∀ x ∈ L.VTableIndices, x ≤ L.VTableComponents.length)
    (hsz : L.VTableComponents.length < SIZE_MODULUS)
    (hn : L.VTableIndices.length < SIZE_MODULUS) :
    (∀ i, i + 1 < L.getNumVTables →
      ∃ o s o₂, L.getVTableOffset i = some o ∧ L.getVTableSize i = some s ∧
        L.getVTableOffset (i + 1) = some o₂ ∧ o + s = o₂) ∧
    (∃ o s, L.getVTableOffset (L.getNumVTables - 1) = some o ∧
      L.getVTableSize (L.getNumVTables - 1) = some s ∧
      o + s = L.VTableComponents.length) ∧
    (∀ i, i < L.getNumVTables → (L.getVTableSize i).isSome = true) ∧
    ∑ i ∈ Finset.range L.getNumVTables, (L.getVTableSize i).getD 0
      = L.VTableComponents.length := by
  have hnum : L.getNumVTables = L.VTableIndices.length := by
    unfold getNumVTables
    rw [if_neg (by simpa using hne)]
  have hpos : 0 < L.VTableIndices.length := List.length_pos.mpr hne
  have hm := getD_monotone L hmono hle
  rw [hnum]
  refine ⟨?_, ?_, ?_, ?_⟩
  · intro i hi
    refine ⟨_, _, _, getVTableOffset_of_lt L i (by omega),
      getVTableSize_of_lt L hmono hle hsz hn i (by omega),
      getVTableOffset_of_lt L (i + 1) hi, ?_⟩
    exact Nat.add_sub_cancel' (hm (Nat.le_add_right i 1))
  · refine ⟨_, _, getVTableOffset_of_lt L _ (by omega),
      getVTableSize_of_lt L hmono hle hsz hn _ (by omega), ?_⟩
    have hlast : L.VTableIndices.length - 1 + 1 = L.VTableIndices.length := by omega
    rw [hlast, List.getD_eq_default _ _ (le_refl _)]
    have := hm (show L.VTableIndices.length - 1 ≤ L.VTableIndices.length by omega)
    simp only at this
    rw [List.getD_eq_default _ _ (le_refl _)] at this
    exact Nat.add_sub_cancel' this
  · intro i hi
    rw [getVTableSize_of_lt L hmono hle hsz hn i hi]
    rfl
  · have hsum : ∑ i ∈ Finset.range L.VTableIndices.length, (L.getVTableSize i).getD 0
        = ∑ i ∈ Finset.range L.VTableIndices.length,
            (L.VTableIndices.getD (i + 1) L.VTableComponents.length
              - L.VTableIndices.getD i L.VTableComponents.length) := by
      apply Finset.sum_congr rfl
      intro i hi
      rw [getVTableSize_of_lt L hmono hle hsz hn i (Finset.mem_range.mp hi)]
      rfl
    rw [hsum, Finset.sum_range_tsub hm, List.getD_eq_default _ _ (le_refl _)]
    have hfirst : L.VTableIndices.getD 0 L.VTableComponents.length = 0 := by
      cases hl : L.VTableIndices with
      | nil => exact absurd hl hne
      | cons x xs =>
        rw [hl] at h0
        simp only [List.head?_cons, Option.some.injEq] at h0
        simp [h0]
    rw [hfirst, Nat.sub_zero]

/-- Claim C23 at a layout of three components cut at 0, 2 and 2: sub-tables
of sizes 2, 0 and 1. -/
theorem subtables_tile_witness :
    (⟨[0, 2, 2], [MakeOffsetToTop ⟨0, 0, 0⟩ 0, MakeRTTI ⟨0, 0, 0⟩ 7,
        MakeFunction ⟨0, 0, 0⟩ 9]⟩ : VTableLayout).VTableIndices ≠ [] ∧
    (⟨[0, 2, 2], [MakeOffsetToTop ⟨0, 0, 0⟩ 0, MakeRTTI ⟨0, 0, 0⟩ 7,
        MakeFunction ⟨0, 0, 0⟩ 9]⟩ : VTableLayout).VTableIndices.head? = some 0 ∧
    (⟨[0, 2, 2], [MakeOffsetToTop ⟨0, 0, 0⟩ 0, MakeRTTI ⟨0, 0, 0⟩ 7,
        MakeFunction ⟨0, 0, 0⟩ 9]⟩ : VTableLayout).VTableIndices.Pairwise (fun x y => x ≤ y) ∧
    (∀ x ∈ (⟨[0, 2, 2], [MakeOffsetToTop ⟨0, 0, 0⟩ 0, MakeRTTI ⟨0, 0, 0⟩ 7,
        MakeFunction ⟨0, 0, 0⟩ 9]⟩ : VTableLayout).VTableIndices,
      x ≤ (⟨[0, 2, 2], [MakeOffsetToTop ⟨0, 0, 0⟩ 0, MakeRTTI ⟨0, 0, 0⟩ 7,
        MakeFunction ⟨0, 0, 0⟩ 9]⟩ : VTableLayout).VTableComponents.length) ∧
    (⟨[0, 2, 2], [MakeOffsetToTop ⟨0, 0, 0⟩ 0, MakeRTTI ⟨0, 0, 0⟩ 7,
        MakeFunction ⟨0, 0, 0⟩ 9]⟩ : VTableLayout).VTableComponents.length < SIZE_MODULUS ∧
    (⟨[0, 2, 2], [MakeOffsetToTop ⟨0, 0, 0⟩ 0, MakeRTTI ⟨0, 0, 0⟩ 7,
        MakeFunction ⟨0, 0, 0⟩ 9]⟩ : VTableLayout).VTableIndices.length < SIZE_MODULUS ∧
    getVTableSize ⟨[0, 2, 2], [MakeOffsetToTop ⟨0, 0, 0⟩ 0, MakeRTTI ⟨0, 0, 0⟩ 7,
        MakeFunction ⟨0, 0, 0⟩ 9]⟩ 0 = some 2 ∧
    getVTableSize ⟨[0, 2, 2], [MakeOffsetToTop ⟨0, 0, 0⟩ 0, MakeRTTI ⟨0, 0, 0⟩ 7,
        MakeFunction ⟨0, 0, 0⟩ 9]⟩ 1 = some 0 ∧
    getVTableSize ⟨[0, 2, 2], [MakeOffsetToTop ⟨0, 0, 0⟩ 0, MakeRTTI ⟨0, 0, 0⟩ 7,
        MakeFunction ⟨0, 0, 0⟩ 9]⟩ 2 = some 1 ∧
    ∑ i ∈ Finset.range (getNumVTables ⟨[0, 2, 2], [MakeOffsetToTop ⟨0, 0, 0⟩ 0, MakeRTTI ⟨0, 0, 0⟩ 7,
        MakeFunction ⟨0, 0, 0⟩ 9]⟩),
      (getVTableSize ⟨[0, 2, 2], [MakeOffsetToTop ⟨0, 0, 0⟩ 0, MakeRTTI ⟨0, 0, 0⟩ 7,
        MakeFunction ⟨0, 0, 0⟩ 9]⟩ i).getD 0 = 3 :=
  ⟨by decide, by decide, by decide, by decide, by decide, by decide,
   by decide, by decide, by decide,
   (subtables_tile ⟨[0, 2, 2], [MakeOffsetToTop ⟨0, 0, 0⟩ 0, MakeRTTI ⟨0, 0, 0⟩ 7,
        MakeFunction ⟨0, 0, 0⟩ 9]⟩ (by decide) (by decide) (by decide) (by decide)
      (by decide) (by decide)).2.2.2⟩

/-- Claim C24: table queries stay in bounds.  For every layout and every `i`
below `getNumVTables`, both `getVTableOffset i` and `getVTableSize i` have a
value, so none of their reads of the start offsets is at or past the length
of that array; a read of `getVTableOffset` has no value exactly when the
array is non-empty and the position is at or past its length. -/
theorem queries_in_bounds (L : VTableLayout) (i j : Nat) (hi : i < L.getNumVTables) :
    (L.getVTableOffset i).isSome = true ∧ (L.getVTableSize i).isSome = true ∧
    (L.getVTableOffset j = none ↔ L.VTableIndices ≠ [] ∧ L.VTableIndices.length ≤ j) := by
  have hchar : ∀ k, L.getVTableOffset k = none ↔
      L.VTableIndices ≠ [] ∧ L.VTableIndices.length ≤ k := by
    intro k
    unfold getVTableOffset
    by_cases he : L.VTableIndices = []
    · simp [he]
    · rw [if_neg (by simpa using he)]
      simp [he]
  have hsome : ∀ k, k < L.getNumVTables → (L.getVTableOffset k).isSome = true := by
    intro k hk
    rw [← Option.ne_none_iff_isSome]
    intro hnone
    obtain ⟨he, hlen⟩ := (hchar k).mp hnone
    unfold getNumVTables at hk
    rw [if_neg (by simpa using he)] at hk
    omega
  refine ⟨hsome i hi, ?_, hchar j⟩
  obtain ⟨o, ho⟩ := Option.isSome_iff_exists.mp (hsome i hi)
  unfold getVTableSize
  rw [ho]
  by_cases hlast : (i + 1) % SIZE_MODULUS = L.getNumVTables
  · simp [hlast]
  · have hk : (i + 1) % SIZE_MODULUS < L.getNumVTables := by
      have := Nat.mod_le (i + 1) SIZE_MODULUS
      omega
    obtain ⟨o₂, ho₂⟩ := Option.isSome_iff_exists.mp (hsome _ hk)
    simp [hlast, ho₂]

/-- Claim C24 at the last sub-table of a layout cut at 0 and 1. -/
theorem queries_in_bounds_witness :
    1 < getNumVTables ⟨[0, 1], [MakeRTTI ⟨0, 0, 0⟩ 7, MakeFunction ⟨0, 0, 0⟩ 9]⟩ ∧
    (getVTableOffset ⟨[0, 1], [MakeRTTI ⟨0, 0, 0⟩ 7, MakeFunction ⟨0, 0, 0⟩ 9]⟩ 1).isSome
      = true ∧
    (getVTableSize ⟨[0, 1], [MakeRTTI ⟨0, 0, 0⟩ 7, MakeFunction ⟨0, 0, 0⟩ 9]⟩ 1).isSome
      = true ∧
    (getVTableOffset ⟨[0, 1], [MakeRTTI ⟨0, 0, 0⟩ 7, MakeFunction ⟨0, 0, 0⟩ 9]⟩ 2 = none ↔
      (⟨[0, 1], [MakeRTTI ⟨0, 0, 0⟩ 7, MakeFunction ⟨0, 0, 0⟩ 9]⟩ :
        VTableLayout).VTableIndices ≠ [] ∧
      (⟨[0, 1], [MakeRTTI ⟨0, 0, 0⟩ 7, MakeFunction ⟨0, 0, 0⟩ 9]⟩ :
        VTableLayout).VTableIndices.length ≤ 2) :=
  ⟨by decide, queries_in_bounds _ 1 2 (by decide)⟩

end VTableLayout

/-! Theorems about `VPtrInfo` and about `setOriginalMethod`. -/

namespace VPtrInfo

/-- Claim C31: on a `VPtrInfo` whose `ContainingVBases` holds virtual bases,
that is non-null class declarations, `getVBaseWithVPtr` returns null exactly
when `ContainingVBases` is empty and otherwise returns its first element, the
first-recorded containing virtual base.  On a freshly constructed
`VPtrInfo(RD)`, whose `ObjectWithVPtr`, `IntroducingObject` and
`NextBaseToMangle` all equal `RD` and whose paths are empty, it returns
null. -/
theorem getVBaseWithVPtr_null_iff_empty (V : VPtrInfo) (RD : Pointer)
    (hvb : ∀ B ∈ V.ContainingVBases, B ≠ nullptr) :
    (getVBaseWithVPtr V = nullptr ↔ V.ContainingVBases = []) ∧
    (∀ front rest, V.ContainingVBases = front :: rest → getVBaseWithVPtr V = front) ∧
    (ctor RD).ObjectWithVPtr = RD ∧ (ctor RD).IntroducingObject = RD ∧
    (ctor RD).NextBaseToMangle = RD ∧ (ctor RD).MangledPath = [] ∧
    (ctor RD).ContainingVBases = [] ∧ (ctor RD).PathToIntroducingObject = [] ∧
    getVBaseWithVPtr (ctor RD) = nullptr := by
  refine ⟨?_, ?_, rfl, rfl, rfl, rfl, rfl, rfl, rfl⟩
  · cases h : V.ContainingVBases with
    | nil => simp [getVBaseWithVPtr, h]
    | cons front rest =>
      have hfront : front ≠ nullptr := hvb front (by simp [h])
      simp [getVBaseWithVPtr, h, hfront]
  · intro front rest h
    simp [getVBaseWithVPtr, h]

/-- Claim C31 at a `VPtrInfo` for class 1 that records the virtual bases 7
and 9, in that order: the answer is 7, the first recorded, and it is not
null. -/
theorem getVBaseWithVPtr_null_iff_empty_witness :
    (∀ B ∈ ({ ctor 1 with ContainingVBases := [7, 9] } : VPtrInfo).ContainingVBases,
      B ≠ nullptr) ∧
    getVBaseWithVPtr { ctor 1 with ContainingVBases := [7, 9] } = 7 ∧
    (getVBaseWithVPtr { ctor 1 with ContainingVBases := [7, 9] } = nullptr ↔
      ({ ctor 1 with ContainingVBases := [7, 9] } : VPtrInfo).ContainingVBases = []) ∧
    getVBaseWithVPtr (ctor 1) = nullptr :=
  have h := getVBaseWithVPtr_null_iff_empty { ctor 1 with ContainingVBases := [7, 9] } 1
    (by decide)
  ⟨by decide, h.2.1 7 [9] rfl, h.1, h.2.2.2.2.2.2.2.2⟩

end VPtrInfo

namespace ItaniumVTableContext

/-- Claim C32: `setOriginalMethod Key Val` changes only the entry for `Key` in
the original-method map.  Afterwards `getOriginalMethodMap` maps `Key` to
`Val`, also when `Key` had a value before, so of two writes to one key the
last wins; every other key maps to what it mapped to before; and every other
data member of the context is as it was. -/
theorem setOriginalMethod_frame (C : ItaniumVTableContext) (Key Val Val₂ K : Pointer) :
    getOriginalMethodMap (setOriginalMethod C Key Val) Key = some Val ∧
    getOriginalMethodMap (setOriginalMethod (setOriginalMethod C Key Val) Key Val₂) Key
      = some Val₂ ∧
    setOriginalMethod (setOriginalMethod C Key Val) Key Val₂ = setOriginalMethod C Key Val₂ ∧
    (K ≠ Key →
      getOriginalMethodMap (setOriginalMethod C Key Val) K = getOriginalMethodMap C K) ∧
    (setOriginalMethod C Key Val).toVTableContextBase = C.toVTableContextBase ∧
    (setOriginalMethod C Key Val).MethodVTableIndices = C.MethodVTableIndices ∧
    (setOriginalMethod C Key Val).VTableLayouts = C.VTableLayouts ∧
    (setOriginalMethod C Key Val).VirtualBaseClassOffsetOffsets
      = C.VirtualBaseClassOffsetOffsets ∧
    (setOriginalMethod C Key Val).ComponentLayout = C.ComponentLayout := by
  refine ⟨?_, ?_, ?_, ?_, rfl, rfl, rfl, rfl, rfl⟩
  · simp [getOriginalMethodMap, setOriginalMethod]
  · simp [getOriginalMethodMap, setOriginalMethod]
  · unfold setOriginalMethod
    congr 1
    funext X
    by_cases hX : X = Key <;> simp [hX]
  · intro hK
    simp [getOriginalMethodMap, setOriginalMethod, hK]

/-- Claim C32 at a concrete context in which method 30 is recorded as
overriding method 20: writing 10 for key 30 replaces that value, and key 20,
which no write has touched, stays without an entry. -/
theorem setOriginalMethod_frame_witness :
    getOriginalMethodMap
        (setOriginalMethod
          ⟨VTableContextBase.ctor false, fun _ => none, fun _ => none, fun _ => none,
            fun p => if p = 30 then some 20 else none, VTableComponentLayout.Pointer⟩
          30 10) 30 = some 10 ∧
    ((20 : Pointer) ≠ 30 →
      getOriginalMethodMap
          (setOriginalMethod
            ⟨VTableContextBase.ctor false, fun _ => none, fun _ => none, fun _ => none,
              fun p => if p = 30 then some 20 else none, VTableComponentLayout.Pointer⟩
            30 10) 20
        = getOriginalMethodMap
            ⟨VTableContextBase.ctor false, fun _ => none, fun _ => none, fun _ => none,
              fun p => if p = 30 then some 20 else none, VTableComponentLayout.Pointer⟩ 20) :=
  have h := setOriginalMethod_frame
    ⟨VTableContextBase.ctor false, fun _ => none, fun _ => none, fun _ => none,
      fun p => if p = 30 then some 20 else none, VTableComponentLayout.Pointer⟩ 30 10 10 20
  ⟨h.1, h.2.2.2.1⟩

end ItaniumVTableContext

end clang
